import Mathlib

/-!
Shallow embedding of the claket-tauri frontend audio engine glue:
the Pinia store `src/stores/audio.ts` (progress reconciliation,
animation-loop extrapolation, play/stop/volume/device actions) and the
seek handlers of `App.vue` (`handleSeek` / `handleSeekStart` /
`handleSeekEnd`).

JavaScript numbers are modelled as integers (`ℤ`) where they hold
millisecond positions, durations and wall-clock times (the backend emits
integral milliseconds, `Date.now()` is integral and the sliders use
`step = 1`, so `Math.round` is the identity on this model) and as
rationals (`ℚ`) where they hold volumes and levels; instance and button
ids are `Nat`, and the JS `Map` objects are association lists with
`Map.set` / `Map.get` / `Map.delete` counterparts below.  Tauri
`invoke` calls can fail (the TS code wraps them in try/catch); each
action that invokes a backend command takes an explicit `ok : Bool`
(or `Option` result) describing the outcome of that call.
-/

namespace Claket

/-- `Map.get`: first value stored under key `k`. -/
def lookupAL {α : Type} (k : Nat) : List (Nat × α) → Option α
  | [] => none
  | (k', v) :: rest => if k' = k then some v else lookupAL k rest

/-- `Map.set`: replace the value under `k` in place, or append a new entry. -/
def setAL {α : Type} (k : Nat) (v : α) : List (Nat × α) → List (Nat × α)
  | [] => [(k, v)]
  | (k', v') :: rest => if k' = k then (k, v) :: rest else (k', v') :: setAL k v rest

/-- `Map.delete`: remove the entry stored under `k` (keys are unique in a JS Map). -/
def eraseAL {α : Type} (k : Nat) (l : List (Nat × α)) : List (Nat × α) :=
  l.filter (fun e => e.1 != k)

/-- Mutate the first list element satisfying `p` (JS `Array.find` followed by
a field assignment on the returned reference). -/
def updateFirst {α : Type} (p : α → Bool) (f : α → α) : List α → List α
  | [] => []
  | a :: rest => if p a then f a :: rest else a :: updateFirst p f rest

/-- `SoundButton` from `src/stores/audio.ts`. -/
structure SoundButton where
  id : Nat
  path : Option String
  name : String
  volume : ℚ
  color : String
  isPaused : Bool
  activeInstances : Nat
deriving DecidableEq

/-- `AudioProgress` from `src/stores/audio.ts` (also the payload shape of the
`audio-progress` event). -/
structure AudioProgress where
  id : String
  instance_id : Nat
  name : String
  position_ms : ℤ
  duration_ms : ℤ
  is_paused : Bool
  last_sync_time : ℤ
  last_sync_pos : ℤ
deriving DecidableEq

/-- The `masterLevels` field: `{ peak, rms }`. -/
structure Levels where
  peak : ℚ
  rms : ℚ
deriving DecidableEq

/-- The projection of a button that `saveSettings` writes to `store.bin`. -/
structure SavedButton where
  id : Nat
  path : Option String
  name : String
  volume : ℚ
  color : String
deriving DecidableEq

/-- The slice of the persisted `store.bin` contents corresponding to the
state fields modelled here (`saveSettings` writes these keys). -/
structure PersistedSettings where
  buttons : List SavedButton
  masterVolume : ℚ
  currentDevice : String
deriving DecidableEq

/-- The audio-relevant slice of the Pinia store state (paging, theming and
layout fields are untouched by the modelled actions and omitted). -/
structure StoreState where
  buttons : List SoundButton
  masterVolume : ℚ
  currentDevice : String
  activeProgresses : List (Nat × AudioProgress)
  seekingInstanceId : Option Nat
  seekRecovery : List (Nat × ℤ)
  masterLevels : Levels
  persisted : PersistedSettings
deriving DecidableEq

/-- Lines 148-174 of the `audio-progress` listener: normal snapshot
consumption.  An existing entry gets its sync fields refreshed (and, when the
payload is paused, its `position_ms`, plus the all-paused master-level reset);
an unknown instance id is inserted fresh; finally the owning button's
`isPaused` flag is mirrored from the payload. -/
def applySnapshot (s : StoreState) (payload : AudioProgress) (now : ℤ) : StoreState :=
  let s1 :=
    match lookupAL payload.instance_id s.activeProgresses with
    | some existing =>
        let updated : AudioProgress :=
          { existing with
            last_sync_pos := payload.position_ms
            last_sync_time := now
            is_paused := payload.is_paused
            duration_ms := payload.duration_ms
            position_ms := if payload.is_paused then payload.position_ms
                           else existing.position_ms }
        let m' := setAL payload.instance_id updated s.activeProgresses
        let levels :=
          if payload.is_paused && m'.all (fun e => e.2.is_paused) then
            ({ peak := 0, rms := 0 } : Levels)
          else s.masterLevels
        { s with activeProgresses := m', masterLevels := levels }
    | none =>
        let fresh : AudioProgress :=
          { payload with last_sync_time := now, last_sync_pos := payload.position_ms }
        { s with activeProgresses := setAL payload.instance_id fresh s.activeProgresses }
  let buttons' :=
    updateFirst (fun b => toString b.id == payload.id)
      (fun b => { b with isPaused := payload.is_paused }) s1.buttons
  { s1 with buttons := buttons' }

/-- The `audio-progress` listener of `setupListeners` (lines 134-175):
drop the snapshot while its instance is being seek-dragged; then check the
armed seek-recovery target with the 100 ms tolerance; otherwise consume the
snapshot normally. -/
def audioProgressHandler (s : StoreState) (payload : AudioProgress) (now : ℤ) : StoreState :=
  if s.seekingInstanceId = some payload.instance_id then s
  else
    match lookupAL payload.instance_id s.seekRecovery with
    | some target =>
        if payload.position_ms ≥ target - 100 then
          applySnapshot { s with seekRecovery := eraseAL payload.instance_id s.seekRecovery }
            payload now
        else s
    | none => applySnapshot s payload now

/-- The body of the `if (!progress.is_paused)` branch of the animation loop:
project the position forward by the wall-clock time elapsed since the last
sync, clamped to the duration. -/
def extrapolate (now : ℤ) (p : AudioProgress) : AudioProgress :=
  if p.is_paused then p
  else { p with position_ms := min p.duration_ms (p.last_sync_pos + (now - p.last_sync_time)) }

/-- One pass of `startAnimationLoop`'s `loop` body (lines 112-127): every
active progress entry not currently seek-dragged and not paused gets its
`position_ms` extrapolated. -/
def animationTick (now : ℤ) (s : StoreState) : StoreState :=
  let m :=
    s.activeProgresses.map fun e =>
      (e.1, if s.seekingInstanceId = some e.1 then e.2 else extrapolate now e.2)
  { s with activeProgresses := m }

/-- The `audio-finished` listener of `setupListeners` (lines 177-187):
on natural completion, decrement the owning button's counter (when positive)
and drop the instance from the active table. -/
def audioFinishedHandler (s : StoreState) (instanceId : Nat) : StoreState :=
  match lookupAL instanceId s.activeProgresses with
  | some progress =>
      let buttons' :=
        updateFirst (fun b => toString b.id == progress.id)
          (fun b =>
            if 0 < b.activeInstances then
              { b with activeInstances := b.activeInstances - 1 }
            else b)
          s.buttons
      { s with buttons := buttons', activeProgresses := eraseAL instanceId s.activeProgresses }
  | none => s

/-- `saveSettings`: persist the modelled fields to `store.bin`. -/
def saveSettings (s : StoreState) : StoreState :=
  let saved : PersistedSettings :=
    { buttons := s.buttons.map fun b =>
        { id := b.id, path := b.path, name := b.name, volume := b.volume, color := b.color }
      masterVolume := s.masterVolume
      currentDevice := s.currentDevice }
  { s with persisted := saved }

/-- `setOutputDevice` (lines 198-207): only when the `set_audio_device`
invoke succeeds is `currentDevice` reassigned and the settings saved; a
failure is caught and leaves the state untouched. -/
def setOutputDevice (ok : Bool) (s : StoreState) (deviceName : String) : StoreState :=
  if ok then saveSettings { s with currentDevice := deviceName } else s

/-- `setMasterVolume` (lines 209-217): the field is assigned before the
`update_master_volume` invoke; settings are saved only when the invoke
succeeds. -/
def setMasterVolume (ok : Bool) (s : StoreState) (volume : ℚ) : StoreState :=
  if ok then saveSettings { s with masterVolume := volume }
  else { s with masterVolume := volume }

/-- `stopAll` (lines 280-292), success path: the `stop_all` invoke, then all
button counters zeroed and the active table cleared.  A failed invoke is
caught and changes nothing. -/
def stopAll (ok : Bool) (s : StoreState) : StoreState :=
  if ok then
    let buttons' := s.buttons.map fun b => { b with activeInstances := 0, isPaused := false }
    { s with buttons := buttons', activeProgresses := [] }
  else s

/-- Modelled from the spec: the Rust backend (src-tauri, not part of this
repository's sources) implements `stop_all() -> ()`, which "removes every
active instance; always succeeds, even with zero active instances"
(spec §4.2), so the `stop_all` invoke never throws. -/
def stopAllSucceeds : Bool := true

/-- `stopInstance` (lines 249-261), parameterised on the outcome of the
`stop_instance` invoke: on success, decrement the owning button's counter
(when positive) and remove the instance from the active table. -/
def stopInstance (ok : Bool) (s : StoreState) (instanceId : Nat) : StoreState :=
  if ok then
    match lookupAL instanceId s.activeProgresses with
    | some progress =>
        let buttons' :=
          updateFirst (fun b => toString b.id == progress.id)
            (fun b =>
              if 0 < b.activeInstances then
                { b with activeInstances := b.activeInstances - 1 }
              else b)
            s.buttons
        { s with buttons := buttons', activeProgresses := eraseAL instanceId s.activeProgresses }
    | none => s
  else s

/-- Modelled from the spec: the backend emits the `audio-finished` event only
on natural end-of-source completion, never for an explicit `stop_instance`
(spec §4.3, §6: "`finished`: one `instance_id` when an instance completes
naturally (not on explicit stop)").  `false` records that an explicit stop
triggers no finished handling. -/
def stopEmitsFinished : Bool := false

/-- `togglePauseInstance` (lines 239-247): `result` is the backend's returned
paused flag (`none` when the invoke failed); on success the stored entry's
`is_paused` is overwritten with it. -/
def togglePauseInstance (result : Option Bool) (s : StoreState) (instanceId : Nat) :
    StoreState :=
  match result with
  | some isPaused =>
      match lookupAL instanceId s.activeProgresses with
      | some p =>
          let m := setAL instanceId { p with is_paused := isPaused } s.activeProgresses
          { s with activeProgresses := m }
      | none => s
  | none => s

/-- Observable actions performed by `playSound` (lines 219-237), in program
order: the counter bump (together with `isPaused := false`), the `play_sound`
invoke, and — only in the catch branch — the compensating decrement. -/
inductive PlayEvent where
  | bumpActive (buttonId : Nat)
  | invokePlay (id : String) (path : String) (name : String) (volume : ℚ)
  | dropActive (buttonId : Nat)
deriving DecidableEq

/-- `playSound` (lines 219-237), parameterised on the outcome of the
`play_sound` invoke.  Returns the new state together with the ordered trace of
observable actions: the button's counter is incremented (and its pause flag
cleared) before the invoke; a failed invoke decrements it again. -/
def playSound (ok : Bool) (s : StoreState) (buttonId : Nat) :
    StoreState × List PlayEvent :=
  match s.buttons.find? (fun b => b.id == buttonId) with
  | none => (s, [])
  | some b =>
      match b.path with
      | none => (s, [])
      | some path =>
          let bumped :=
            updateFirst (fun x => x.id == buttonId)
              (fun x => { x with activeInstances := x.activeInstances + 1, isPaused := false })
              s.buttons
          let trace :=
            [PlayEvent.bumpActive buttonId,
             PlayEvent.invokePlay (toString buttonId) path b.name b.volume]
          if ok then
            ({ s with buttons := bumped }, trace)
          else
            let reverted :=
              updateFirst (fun x => x.id == buttonId)
                (fun x => { x with activeInstances := x.activeInstances - 1 }) bumped
            ({ s with buttons := reverted }, trace ++ [PlayEvent.dropActive buttonId])

/-- Component-local state of `App.vue`: the store plus the `localSeekValue`
ref and the `wasPlayingBeforeSeek` ref (a `Map`). -/
structure AppState where
  store : StoreState
  localSeekValue : Option ℤ
  wasPlayingBeforeSeek : List (Nat × Bool)
deriving DecidableEq

/-- Observable actions performed by `handleSeekEnd` (App.vue lines 115-135),
in program order. -/
inductive SeekEvent where
  | setRecovery (instanceId : Nat) (target : ℤ)
  | invokeSeek (instanceId : Nat) (positionMs : ℤ)
  | setPosition (instanceId : Nat) (value : ℤ)
  | invokeTogglePause (instanceId : Nat)
  | clearSeeking
deriving DecidableEq

/-- `handleSeek` (App.vue lines 94-98): while this instance is the one being
dragged, a slider update only rewrites the local ref. -/
def handleSeek (a : AppState) (instanceId : Nat) (v : List ℤ) : AppState :=
  match v with
  | val :: _ =>
      if a.store.seekingInstanceId = some instanceId then
        { a with localSeekValue := some val }
      else a
  | [] => a

/-- `handleSeekStart` (App.vue lines 100-113), with `toggleResult` the
backend's answer to the `toggle_pause_instance` invoke issued when the
instance was playing. -/
def handleSeekStart (toggleResult : Option Bool) (a : AppState) (instanceId : Nat) :
    AppState :=
  match lookupAL instanceId a.store.activeProgresses with
  | some item =>
      let wasPlaying := !item.is_paused
      let s1 := { a.store with seekingInstanceId := some instanceId }
      let s2 := if wasPlaying then togglePauseInstance toggleResult s1 instanceId else s1
      { store := s2
        localSeekValue := some item.position_ms
        wasPlayingBeforeSeek := setAL instanceId wasPlaying a.wasPlayingBeforeSeek }
  | none => a

/-- `handleSeekEnd` (App.vue lines 115-135), with `toggleResult` the backend's
answer to the resume `toggle_pause_instance` invoke (ignored when no toggle
happens).  Returns the new component state together with the ordered trace of
observable actions: when the dragged instance is live and a local slider value
exists, the recovery target is armed, then `seek_instance` is invoked with the
rounded position, then the item's own `position_ms` is optimistically set;
afterwards playback is resumed if it was paused for the drag, the
`wasPlayingBeforeSeek` entry is dropped and the seeking marker cleared. -/
def handleSeekEnd (toggleResult : Option Bool) (a : AppState) (instanceId : Nat) :
    AppState × List SeekEvent :=
  let item := lookupAL instanceId a.store.activeProgresses
  let wasPlaying := lookupAL instanceId a.wasPlayingBeforeSeek
  let step1 :=
    match item, a.localSeekValue with
    | some _, some v =>
        let sA := { a.store with seekRecovery := setAL instanceId v a.store.seekRecovery }
        let sB :=
          match lookupAL instanceId sA.activeProgresses with
          | some it =>
              let m := setAL instanceId { it with position_ms := v } sA.activeProgresses
              { sA with activeProgresses := m }
          | none => sA
        (sB, [SeekEvent.setRecovery instanceId v,
              SeekEvent.invokeSeek instanceId v,
              SeekEvent.setPosition instanceId v])
    | _, _ => (a.store, ([] : List SeekEvent))
  let step2 :=
    match wasPlaying, lookupAL instanceId step1.1.activeProgresses with
    | some true, some it =>
        if it.is_paused then
          (togglePauseInstance toggleResult step1.1 instanceId,
           [SeekEvent.invokeTogglePause instanceId])
        else (step1.1, ([] : List SeekEvent))
    | _, _ => (step1.1, ([] : List SeekEvent))
  let final : AppState :=
    { store := { step2.1 with seekingInstanceId := none }
      localSeekValue := none
      wasPlayingBeforeSeek := eraseAL instanceId a.wasPlayingBeforeSeek }
  (final, step1.2 ++ step2.2 ++ [SeekEvent.clearSeeking])

/-- The slider value rendered for an instance (App.vue template, e.g. line
402): the local drag value while this instance is being dragged and a local
value exists, otherwise the stored `position_ms`. -/
def displayedSliderValue (seeking : Option Nat) (localSeek : Option ℤ) (instanceId : Nat)
    (positionMs : ℤ) : ℤ :=
  match seeking, localSeek with
  | some j, some v => if j = instanceId then v else positionMs
  | _, _ => positionMs

theorem lookupAL_setAL_self {α : Type} (k : Nat) (v : α) (l : List (Nat × α)) :
    lookupAL k (setAL k v l) = some v := by
  induction l with
  | nil => simp [setAL, lookupAL]
  | cons e rest ih =>
      obtain ⟨k', v'⟩ := e
      by_cases h : k' = k
      · simp [setAL, h, lookupAL]
      · simp [setAL, h, lookupAL, ih]

theorem lookupAL_eraseAL_self {α : Type} (k : Nat) (l : List (Nat × α)) :
    lookupAL k (eraseAL k l) = none := by
  induction l with
  | nil => rfl
  | cons e rest ih =>
      obtain ⟨k', v'⟩ := e
      by_cases h : k' = k
      · simpa [eraseAL, h] using ih
      · simpa [eraseAL, lookupAL, h] using ih

theorem find?_updateFirst {α : Type} (p : α → Bool) (f : α → α)
    (hp : ∀ a, p a = true → p (f a) = true) (l : List α) :
    List.find? p (updateFirst p f l) = (List.find? p l).map f := by
  induction l with
  | nil => rfl
  | cons a rest ih =>
      by_cases h : p a = true
      · simp [updateFirst, h, List.find?_cons_of_pos, hp a h]
      · have h' : p a = false := by simpa using h
        simp [updateFirst, h', List.find?_cons_of_neg, ih]

theorem lookupAL_mapEntries {α : Type} (g : Nat → α → α) (k : Nat) (l : List (Nat × α)) :
    lookupAL k (l.map fun e => (e.1, g e.1 e.2)) = (lookupAL k l).map (g k) := by
  induction l with
  | nil => rfl
  | cons e rest ih =>
      obtain ⟨k', v'⟩ := e
      by_cases h : k' = k
      · subst h; simp [lookupAL]
      · simp [lookupAL, h, ih]

theorem applySnapshot_seekRecovery (s : StoreState) (payload : AudioProgress) (now : ℤ) :
    (applySnapshot s payload now).seekRecovery = s.seekRecovery := by
  cases hl : lookupAL payload.instance_id s.activeProgresses <;>
    simp [applySnapshot, hl]

theorem applySnapshot_lookup_self (s : StoreState) (payload : AudioProgress) (now : ℤ) :
    ∃ e : AudioProgress,
      lookupAL payload.instance_id (applySnapshot s payload now).activeProgresses = some e ∧
      e.last_sync_pos = payload.position_ms ∧
      e.last_sync_time = now ∧
      e.is_paused = payload.is_paused ∧
      e.duration_ms = payload.duration_ms := by
  cases hl : lookupAL payload.instance_id s.activeProgresses with
  | none =>
      refine ⟨{ payload with last_sync_time := now, last_sync_pos := payload.position_ms },
        ?_, rfl, rfl, rfl, rfl⟩
      simp [applySnapshot, hl, lookupAL_setAL_self]
  | some existing =>
      refine ⟨{ existing with
                  last_sync_pos := payload.position_ms
                  last_sync_time := now
                  is_paused := payload.is_paused
                  duration_ms := payload.duration_ms
                  position_ms := if payload.is_paused then payload.position_ms
                                 else existing.position_ms },
        ?_, rfl, rfl, rfl, rfl⟩
      simp [applySnapshot, hl, lookupAL_setAL_self]

/-- C7: if switching the output device fails, the previously selected device
(and the persisted settings) remain current; on success the new name is both
current and persisted. -/
theorem setOutputDevice_failure_keeps_device :
    ∀ (s : StoreState) (n : String),
      setOutputDevice false s n = s ∧
      (setOutputDevice true s n).currentDevice = n ∧
      (setOutputDevice true s n).persisted.currentDevice = n := by
  intro s n
  refine ⟨rfl, rfl, rfl⟩

/-- C8: setting the master volume (for either invoke outcome, any argument)
rewrites `masterVolume` and leaves the buttons — in particular every stored
per-button volume — unchanged. -/
theorem setMasterVolume_preserves_button_volumes :
    ∀ (ok : Bool) (s : StoreState) (v : ℚ),
      (setMasterVolume ok s v).masterVolume = v ∧
      (setMasterVolume ok s v).buttons = s.buttons ∧
      (setMasterVolume ok s v).buttons.map SoundButton.volume
        = s.buttons.map SoundButton.volume := by
  intro ok s v
  cases ok <;> exact ⟨rfl, rfl, rfl⟩

/-- Sample button: source key "3", one active instance. -/
def sampleButton : SoundButton :=
  { id := 3, path := some "sounds/boom.wav", name := "Boom", volume := 1,
    color := "bg-secondary", isPaused := false, activeInstances := 1 }

/-- Sample active progress entry: instance 1 of button "3", playing at 5000 ms
of an 8000 ms clip, last synced at wall-clock 1000. -/
def sampleProgress : AudioProgress :=
  { id := "3", instance_id := 1, name := "Boom", position_ms := 5000, duration_ms := 8000,
    is_paused := false, last_sync_time := 1000, last_sync_pos := 5000 }

/-- Sample persisted settings. -/
def samplePersisted : PersistedSettings :=
  { buttons := [], masterVolume := 1, currentDevice := "Default" }

/-- Sample store state: one configured button, instance 1 active. -/
def sampleState : StoreState :=
  { buttons := [sampleButton], masterVolume := 1, currentDevice := "Default",
    activeProgresses := [(1, sampleProgress)], seekingInstanceId := none,
    seekRecovery := [], masterLevels := { peak := 0, rms := 0 },
    persisted := samplePersisted }

/-- Sample state with a recovery target of 5000 ms armed for instance 1
(the situation right after a seek to 5000 completed). -/
def armedState : StoreState :=
  { sampleState with seekRecovery := [(1, 5000)] }

/-- Sample state in which instance 1 is both being seek-dragged and has an
armed recovery target (the situation while `handleSeekEnd` is awaiting the
`seek_instance` invoke, after arming the target and before clearing
`seekingInstanceId`). -/
def seekingArmedState : StoreState :=
  { sampleState with seekingInstanceId := some 1, seekRecovery := [(1, 5000)] }

/-- A snapshot for instance 1 reporting exactly the 5000 ms target. -/
def snapAtTarget : AudioProgress := sampleProgress

/-- A stale snapshot for instance 1 reporting position 0. -/
def staleSnap : AudioProgress := { sampleProgress with position_ms := 0 }

/-- C1 counterexample: a snapshot whose `position_ms` meets the armed
recovery target (5000 ≥ 5000 − 100) arrives while the instance is being
seek-dragged; the handler discards it wholesale and the target stays armed,
contradicting the claim that such a snapshot clears the target and is applied. -/
theorem seekRecovery_not_cleared_while_dragging :
    lookupAL 1 seekingArmedState.seekRecovery = some 5000 ∧
    snapAtTarget.instance_id = 1 ∧
    snapAtTarget.position_ms ≥ 5000 - 100 ∧
    audioProgressHandler seekingArmedState snapAtTarget 2000 = seekingArmedState ∧
    lookupAL 1 (audioProgressHandler seekingArmedState snapAtTarget 2000).seekRecovery
      = some 5000 := by
  exact ⟨by decide, by decide, by decide, by decide, by decide⟩

/-- C1 (amended): for every snapshot for an instance with an armed recovery
target `t` that is NOT currently being seek-dragged: a position strictly below
`t − 100` leaves the whole state untouched and the target armed, while a
position of at least `t − 100` clears the target and consumes the snapshot
normally (equal to `applySnapshot` on the state with the target deleted). -/
theorem audioProgressHandler_recovery_cases :
    ∀ (s : StoreState) (p : AudioProgress) (now t : ℤ),
      s.seekingInstanceId ≠ some p.instance_id →
      lookupAL p.instance_id s.seekRecovery = some t →
      (p.position_ms < t - 100 → audioProgressHandler s p now = s) ∧
      (p.position_ms ≥ t - 100 →
        audioProgressHandler s p now
          = applySnapshot { s with seekRecovery := eraseAL p.instance_id s.seekRecovery }
              p now ∧
        lookupAL p.instance_id (audioProgressHandler s p now).seekRecovery = none) := by
  intro s p now t hseek hrec
  constructor
  · intro hlt
    have hge : ¬ (p.position_ms ≥ t - 100) := not_le.mpr hlt
    simp [audioProgressHandler, hseek, hrec, hge]
  · intro hge
    have h1 : audioProgressHandler s p now
        = applySnapshot { s with seekRecovery := eraseAL p.instance_id s.seekRecovery }
            p now := by
      simp [audioProgressHandler, hseek, hrec, hge]
    refine ⟨h1, ?_⟩
    rw [h1, applySnapshot_seekRecovery]
    exact lookupAL_eraseAL_self _ _

/-- Witness for the amended C1 at a concrete input: recovery target 5000
armed, snapshot at 5000, not dragging. -/
theorem audioProgressHandler_recovery_cases_witness :
    armedState.seekingInstanceId ≠ some snapAtTarget.instance_id ∧
    lookupAL snapAtTarget.instance_id armedState.seekRecovery = some 5000 ∧
    (snapAtTarget.position_ms ≥ 5000 - 100 →
      audioProgressHandler armedState snapAtTarget 2000
        = applySnapshot
            { armedState with
                seekRecovery := eraseAL snapAtTarget.instance_id armedState.seekRecovery }
            snapAtTarget 2000 ∧
      lookupAL snapAtTarget.instance_id
          (audioProgressHandler armedState snapAtTarget 2000).seekRecovery = none) :=
  ⟨by decide, by decide,
   (audioProgressHandler_recovery_cases armedState snapAtTarget 2000 5000
      (by decide) (by decide)).2⟩

/-- C2 counterexample: after a seek to 5000 (target armed), a snapshot at the
target is accepted and clears the target; a stale snapshot at position 0 that
arrives next is accepted unconditionally (its sync position is stored), even
though 0 < 5000 − 100, and the extrapolated displayed position rolls back from
5050 to 50 — refuting both halves of the claim under out-of-order delivery. -/
theorem stale_snapshot_accepted_after_recovery_cleared :
    lookupAL 1 armedState.seekRecovery = some 5000 ∧
    lookupAL 1 (audioProgressHandler armedState snapAtTarget 1100).seekRecovery = none ∧
    staleSnap.position_ms < 5000 - 100 ∧
    (lookupAL 1 (audioProgressHandler (audioProgressHandler armedState snapAtTarget 1100)
        staleSnap 1200).activeProgresses).map AudioProgress.last_sync_pos = some 0 ∧
    (lookupAL 1 (animationTick 1150 (audioProgressHandler armedState snapAtTarget
        1100)).activeProgresses).map AudioProgress.position_ms = some 5050 ∧
    (lookupAL 1 (animationTick 1250 (audioProgressHandler (audioProgressHandler armedState
        snapAtTarget 1100) staleSnap 1200)).activeProgresses).map AudioProgress.position_ms
      = some 50 ∧
    (50 : ℤ) < 5050 := by
  exact ⟨by decide, by decide, by decide, by decide, by decide, by decide, by decide⟩

/-- C2 (amended): while the recovery target `t` for an instance remains
armed, any snapshot for it that is accepted (changes the state at all)
reports `position_ms ≥ t − 100`; once the target is cleared snapshots are
applied unconditionally, so the monotonicity guarantee only covers the
armed window and only up to the tolerance. -/
theorem accepted_snapshot_meets_armed_target :
    ∀ (s : StoreState) (p : AudioProgress) (now t : ℤ),
      lookupAL p.instance_id s.seekRecovery = some t →
      audioProgressHandler s p now ≠ s →
      p.position_ms ≥ t - 100 := by
  intro s p now t hrec hacc
  by_cases hseek : s.seekingInstanceId = some p.instance_id
  · exact absurd (by simp [audioProgressHandler, hseek]) hacc
  · by_cases hge : p.position_ms ≥ t - 100
    · exact hge
    · exact absurd (by simp [audioProgressHandler, hseek, hrec, hge]) hacc

/-- Witness for the amended C2 at a concrete input: armed target 5000,
snapshot at 5000 is accepted (it changes the state) and meets the bound. -/
theorem accepted_snapshot_meets_armed_target_witness :
    lookupAL snapAtTarget.instance_id armedState.seekRecovery = some 5000 ∧
    audioProgressHandler armedState snapAtTarget 1100 ≠ armedState ∧
    snapAtTarget.position_ms ≥ 5000 - 100 :=
  ⟨by decide, by decide,
   accepted_snapshot_meets_armed_target armedState snapAtTarget 1100 5000
     (by decide) (by decide)⟩

theorem animationTick_lookup (now : ℤ) (s : StoreState) (i : Nat) :
    lookupAL i (animationTick now s).activeProgresses
      = (lookupAL i s.activeProgresses).map
          (fun v => if s.seekingInstanceId = some i then v else extrapolate now v) := by
  simpa [animationTick] using
    lookupAL_mapEntries
      (fun k v => if s.seekingInstanceId = some k then v else extrapolate now v)
      i s.activeProgresses

theorem animationTick_paused_fixed (i : Nat) (p : AudioProgress)
    (hpause : p.is_paused = true) :
    ∀ (ts : List ℤ) (s : StoreState),
      s.seekingInstanceId ≠ some i →
      lookupAL i s.activeProgresses = some p →
      lookupAL i (List.foldl (fun st t => animationTick t st) s ts).activeProgresses
        = some p := by
  intro ts
  induction ts with
  | nil => intro s _ hl; simpa using hl
  | cons t rest ih =>
      intro s hseek hl
      simp only [List.foldl_cons]
      apply ih
      · simpa [animationTick] using hseek
      · rw [animationTick_lookup, hl]
        simp [hseek, extrapolate, hpause]

/-- C3: for an active instance that is not being dragged, one animation-loop
pass sets its displayed `position_ms` to the duration-clamped forward
extrapolation when it is not paused, and leaves the entry untouched across any
sequence of passes while it is paused (no drift for the whole pause interval). -/
theorem animationTick_extrapolates_and_pause_freezes :
    ∀ (s : StoreState) (now : ℤ) (i : Nat) (p : AudioProgress),
      s.seekingInstanceId ≠ some i →
      lookupAL i s.activeProgresses = some p →
      (p.is_paused = false →
        lookupAL i (animationTick now s).activeProgresses
          = some { p with
              position_ms := min p.duration_ms (p.last_sync_pos + (now - p.last_sync_time)) }) ∧
      (p.is_paused = true →
        ∀ ts : List ℤ,
          lookupAL i (List.foldl (fun st t => animationTick t st) s ts).activeProgresses
            = some p) := by
  intro s now i p hseek hl
  constructor
  · intro hpause
    rw [animationTick_lookup, hl]
    simp [hseek, extrapolate, hpause]
  · intro hpause ts
    exact animationTick_paused_fixed i p hpause ts s hseek hl

/-- A paused sample entry for the C3 witness. -/
def pausedProgress : AudioProgress := { sampleProgress with is_paused := true }

/-- Sample state whose single active instance is paused. -/
def pausedState : StoreState :=
  { sampleState with activeProgresses := [(1, pausedProgress)] }

/-- Witness for C3 at a concrete input: instance 1 of `pausedState` is not
dragged and paused, and three animation passes leave it untouched. -/
theorem animationTick_extrapolates_and_pause_freezes_witness :
    pausedState.seekingInstanceId ≠ some 1 ∧
    lookupAL 1 pausedState.activeProgresses = some pausedProgress ∧
    (pausedProgress.is_paused = true →
      ∀ ts : List ℤ,
        lookupAL 1 (List.foldl (fun st t => animationTick t st) pausedState
            ts).activeProgresses = some pausedProgress) :=
  ⟨by decide, by decide,
   (animationTick_extrapolates_and_pause_freezes pausedState 1100 1 pausedProgress
      (by decide) (by decide)).2⟩

/-- C4: whenever `handleSeekEnd` fires for a live dragged instance with a
local slider value `v`, its action trace starts with arming the recovery
target at `v`, then (strictly after) the `seek_instance` invoke, then the
optimistic assignment of the item's own `position_ms`; in the resulting state
the recovery target is `v` and the stored position is `v`. -/
theorem handleSeekEnd_arms_recovery_before_seek :
    ∀ (r : Option Bool) (a : AppState) (i : Nat) (item : AudioProgress) (v : ℤ),
      lookupAL i a.store.activeProgresses = some item →
      a.localSeekValue = some v →
      (∃ rest, (handleSeekEnd r a i).2
          = SeekEvent.setRecovery i v :: SeekEvent.invokeSeek i v
              :: SeekEvent.setPosition i v :: rest) ∧
      lookupAL i (handleSeekEnd r a i).1.store.seekRecovery = some v ∧
      (lookupAL i (handleSeekEnd r a i).1.store.activeProgresses).map
          AudioProgress.position_ms = some v := by
  intro r a i item v hitem hlocal
  simp only [handleSeekEnd, hitem, hlocal, lookupAL_setAL_self]
  rcases hw : lookupAL i a.wasPlayingBeforeSeek with _ | b
  · simp [lookupAL_setAL_self]
  · cases b
    · simp [lookupAL_setAL_self]
    · by_cases hpause : item.is_paused = true
      · cases r with
        | none => simp [hpause, togglePauseInstance, lookupAL_setAL_self]
        | some rb => simp [hpause, togglePauseInstance, lookupAL_setAL_self]
      · have hpause' : item.is_paused = false := by simpa using hpause
        simp [hpause', lookupAL_setAL_self]

/-- Component state for the C4 witness: instance 1 being dragged at local
slider value 6000, having been playing before the drag. -/
def sampleApp : AppState :=
  { store := { sampleState with seekingInstanceId := some 1 }
    localSeekValue := some 6000
    wasPlayingBeforeSeek := [(1, true)] }

/-- Witness for C4 at a concrete input. -/
theorem handleSeekEnd_arms_recovery_before_seek_witness :
    lookupAL 1 sampleApp.store.activeProgresses = some sampleProgress ∧
    sampleApp.localSeekValue = some 6000 ∧
    ((∃ rest, (handleSeekEnd (some false) sampleApp 1).2
        = SeekEvent.setRecovery 1 6000 :: SeekEvent.invokeSeek 1 6000
            :: SeekEvent.setPosition 1 6000 :: rest) ∧
     lookupAL 1 (handleSeekEnd (some false) sampleApp 1).1.store.seekRecovery = some 6000 ∧
     (lookupAL 1 (handleSeekEnd (some false) sampleApp 1).1.store.activeProgresses).map
        AudioProgress.position_ms = some 6000) :=
  ⟨by decide, by decide,
   handleSeekEnd_arms_recovery_before_seek (some false) sampleApp 1 sampleProgress 6000
     (by decide) (by decide)⟩

/-- C5: `stopAll` (whose backend command always succeeds) empties the
active-progress table and zeroes every button's counter and pause flag,
whatever the prior state. -/
theorem stopAll_clears_everything :
    ∀ s : StoreState,
      (stopAll stopAllSucceeds s).activeProgresses = [] ∧
      ∀ b ∈ (stopAll stopAllSucceeds s).buttons,
        b.activeInstances = 0 ∧ b.isPaused = false := by
  intro s
  refine ⟨rfl, ?_⟩
  intro b hb
  simp only [stopAll, stopAllSucceeds, if_true, List.mem_map] at hb
  obtain ⟨a, -, rfl⟩ := hb
  exact ⟨rfl, rfl⟩

/-- Witness for C5 at a concrete input: `sampleState` has an active instance
and a button with counter 1; after `stopAll` the table is empty and the
cleared button is a member with counter 0 and pause flag false. -/
theorem stopAll_clears_everything_witness :
    (stopAll stopAllSucceeds sampleState).activeProgresses = [] ∧
    ({ sampleButton with activeInstances := 0, isPaused := false }
        ∈ (stopAll stopAllSucceeds sampleState).buttons) ∧
    ({ sampleButton with activeInstances := 0, isPaused := false } : SoundButton).activeInstances
        = 0 ∧
    ({ sampleButton with activeInstances := 0, isPaused := false } : SoundButton).isPaused
        = false :=
  ⟨(stopAll_clears_everything sampleState).1, by decide,
   ((stopAll_clears_everything sampleState).2 _ (by decide)).1,
   ((stopAll_clears_everything sampleState).2 _ (by decide)).2⟩

/-- C6: stopping an active instance (successful `stop_instance` invoke)
removes it from the active table and decrements its owning button's counter by
one (the button found by the instance's source key, provided its counter was
positive); no finished handling is triggered — the `audio-finished` event is
emitted only on natural completion, never for an explicit stop. -/
theorem stopInstance_removes_and_decrements :
    ∀ (s : StoreState) (i : Nat) (pr : AudioProgress) (b : SoundButton),
      lookupAL i s.activeProgresses = some pr →
      List.find? (fun x => toString x.id == pr.id) s.buttons = some b →
      0 < b.activeInstances →
      lookupAL i (stopInstance true s i).activeProgresses = none ∧
      List.find? (fun x => toString x.id == pr.id) (stopInstance true s i).buttons
        = some { b with activeInstances := b.activeInstances - 1 } ∧
      stopEmitsFinished = false := by
  intro s i pr b hpr hfind hpos
  have hp : ∀ x : SoundButton, (toString x.id == pr.id) = true →
      (toString ((fun y : SoundButton =>
          if 0 < y.activeInstances then { y with activeInstances := y.activeInstances - 1 }
          else y) x).id == pr.id) = true := by
    intro x hx
    by_cases hc : 0 < x.activeInstances <;> simp [hc, hx]
  refine ⟨?_, ?_, rfl⟩
  · simp [stopInstance, hpr, lookupAL_eraseAL_self]
  · simp only [stopInstance, if_true, hpr]
    rw [find?_updateFirst _ _ hp, hfind]
    simp [hpos]

/-- Witness for C6 at a concrete input: stopping instance 1 of `sampleState`
(owned by button 3 with counter 1). -/
theorem stopInstance_removes_and_decrements_witness :
    lookupAL 1 sampleState.activeProgresses = some sampleProgress ∧
    List.find? (fun x => toString x.id == sampleProgress.id) sampleState.buttons
      = some sampleButton ∧
    0 < sampleButton.activeInstances ∧
    (lookupAL 1 (stopInstance true sampleState 1).activeProgresses = none ∧
     List.find? (fun x => toString x.id == sampleProgress.id)
        (stopInstance true sampleState 1).buttons
       = some { sampleButton with activeInstances := sampleButton.activeInstances - 1 } ∧
     stopEmitsFinished = false) :=
  ⟨by decide, by decide, by decide,
   stopInstance_removes_and_decrements sampleState 1 sampleProgress sampleButton
     (by decide) (by decide) (by decide)⟩

/-- C9: `playSound` on a configured button bumps the counter (together with
clearing the pause flag) strictly before the `play_sound` invoke, and a failed
invoke compensates with a decrement, so the counter ends exactly where it
started; a successful invoke leaves it incremented by one. -/
theorem playSound_failure_restores_counter :
    ∀ (s : StoreState) (bid : Nat) (b : SoundButton) (path : String),
      List.find? (fun x => x.id == bid) s.buttons = some b →
      b.path = some path →
      (playSound false s bid).2
        = [PlayEvent.bumpActive bid,
           PlayEvent.invokePlay (toString bid) path b.name b.volume,
           PlayEvent.dropActive bid] ∧
      (List.find? (fun x => x.id == bid) (playSound false s bid).1.buttons).map
          SoundButton.activeInstances = some b.activeInstances ∧
      (List.find? (fun x => x.id == bid) (playSound true s bid).1.buttons).map
          SoundButton.activeInstances = some (b.activeInstances + 1) := by
  intro s bid b path hfind hpath
  have hbump : ∀ x : SoundButton, (x.id == bid) = true →
      (((fun y : SoundButton =>
          { y with activeInstances := y.activeInstances + 1, isPaused := false }) x).id
        == bid) = true := fun x hx => hx
  have hdrop : ∀ x : SoundButton, (x.id == bid) = true →
      (((fun y : SoundButton =>
          { y with activeInstances := y.activeInstances - 1 }) x).id == bid) = true :=
    fun x hx => hx
  refine ⟨?_, ?_, ?_⟩
  · simp [playSound, hfind, hpath]
  · simp only [playSound, hfind, hpath, Bool.false_eq_true, if_false]
    rw [find?_updateFirst _ _ hdrop, find?_updateFirst _ _ hbump, hfind]
    simp
  · simp only [playSound, hfind, hpath, if_true]
    rw [find?_updateFirst _ _ hbump, hfind]
    simp

/-- Witness for C9 at a concrete input: a failed play on button 3 of
`sampleState` leaves its counter at 1; a successful one takes it to 2. -/
theorem playSound_failure_restores_counter_witness :
    List.find? (fun x => x.id == 3) sampleState.buttons = some sampleButton ∧
    sampleButton.path = some "sounds/boom.wav" ∧
    ((playSound false sampleState 3).2
        = [PlayEvent.bumpActive 3,
           PlayEvent.invokePlay (toString 3) "sounds/boom.wav" sampleButton.name
             sampleButton.volume,
           PlayEvent.dropActive 3] ∧
     (List.find? (fun x => x.id == 3) (playSound false sampleState 3).1.buttons).map
        SoundButton.activeInstances = some sampleButton.activeInstances ∧
     (List.find? (fun x => x.id == 3) (playSound true sampleState 3).1.buttons).map
        SoundButton.activeInstances = some (sampleButton.activeInstances + 1)) :=
  ⟨by decide, by decide,
   playSound_failure_restores_counter sampleState 3 sampleButton "sounds/boom.wav"
     (by decide) (by decide)⟩

/-- C10: while an instance is being seek-dragged, an incoming snapshot for it
leaves the whole store untouched, the animation loop leaves its stored entry
untouched, and the rendered slider value is exactly the local drag value. -/
theorem dragging_freezes_instance_state :
    ∀ (s : StoreState) (payload : AudioProgress) (now : ℤ) (i : Nat) (v posStored : ℤ),
      s.seekingInstanceId = some i →
      (payload.instance_id = i → audioProgressHandler s payload now = s) ∧
      lookupAL i (animationTick now s).activeProgresses = lookupAL i s.activeProgresses ∧
      displayedSliderValue s.seekingInstanceId (some v) i posStored = v := by
  intro s payload now i v posStored hseek
  refine ⟨?_, ?_, ?_⟩
  · intro hpid
    simp [audioProgressHandler, hseek, hpid]
  · rw [animationTick_lookup]
    cases hl : lookupAL i s.activeProgresses <;> simp [hseek]
  · simp [displayedSliderValue, hseek]

/-- Witness for C10 at a concrete input: instance 1 of `seekingArmedState` is
being dragged; the handler ignores its snapshot, the animation pass keeps its
entry, and the slider renders the local value 4321. -/
theorem dragging_freezes_instance_state_witness :
    seekingArmedState.seekingInstanceId = some 1 ∧
    ((snapAtTarget.instance_id = 1 →
        audioProgressHandler seekingArmedState snapAtTarget 2000 = seekingArmedState) ∧
     lookupAL 1 (animationTick 2000 seekingArmedState).activeProgresses
        = lookupAL 1 seekingArmedState.activeProgresses ∧
     displayedSliderValue seekingArmedState.seekingInstanceId (some 4321) 1
        snapAtTarget.position_ms = 4321) :=
  ⟨by decide,
   dragging_freezes_instance_state seekingArmedState snapAtTarget 2000 1 4321
     snapAtTarget.position_ms (by decide)⟩

end Claket
